import Mathlib

set_option maxHeartbeats 1000000

namespace Pipeline

attribute [local semireducible] Rat.add Rat.mul Rat.sub Rat.inv Rat.ofScientific

/-- Python `max(a, b)` on floats. -/
def pyMax (a b : ℚ) : ℚ := if a ≤ b then b else a

/-- Python `min(a, b)` on floats. -/
def pyMin (a b : ℚ) : ℚ := if a ≤ b then a else b

/-! Shallow embedding of the agent-orchestration decision pipeline
(`evaluation_engine.py`, `policy_engine.py`, `exec_worker.py`,
`log_ingest_worker.py`, `eval_worker.py`).  Python strings are modelled as
`List Char` (the pipeline's keywords and tags are ASCII), Python floats as
exact rationals `ℚ`, Python dicts as structures whose fields are
`Option`-valued (`none` = key missing or value `None`, except where the
missing/`None` distinction matters and is then modelled explicitly).
SHA-256 digests are modelled by their exact pre-hash input string: equal
inputs give equal digests, and distinct inputs give distinct digests
barring a SHA-256 collision. -/

/-- ASCII whitespace recognised by Python `str.strip()` (the ASCII subset of
Python's whitespace set; the pipeline's field data is ASCII). -/
def isSpaceChar (c : Char) : Bool :=
  c == ' ' || c == '\t' || c == '\n' || c == '\r' || c == '\x0b' || c == '\x0c'

/-- The ASCII upper/lower case pairs. -/
def casePairs : List (Char × Char) :=
  [('A','a'),('B','b'),('C','c'),('D','d'),('E','e'),('F','f'),('G','g'),
   ('H','h'),('I','i'),('J','j'),('K','k'),('L','l'),('M','m'),('N','n'),
   ('O','o'),('P','p'),('Q','q'),('R','r'),('S','s'),('T','t'),('U','u'),
   ('V','v'),('W','w'),('X','x'),('Y','y'),('Z','z')]

/-- Python `str.lower()` on one character (ASCII case mapping, which covers
every character the pipeline's keyword tables and tags contain). -/
def pyLowerChar (c : Char) : Char :=
  match casePairs.find? (fun p => p.1 == c) with
  | some p => p.2
  | none => c

/-- Python `str.upper()` on one character (ASCII case mapping). -/
def pyUpperChar (c : Char) : Char :=
  match casePairs.find? (fun p => p.2 == c) with
  | some p => p.1
  | none => c

/-- Python `str.lower()`. -/
def pyLower (s : List Char) : List Char := s.map pyLowerChar

/-- Python `str.upper()`. -/
def pyUpper (s : List Char) : List Char := s.map pyUpperChar

/-- Python `str.strip()`: drop whitespace from both ends. -/
def pyStrip (s : List Char) : List Char :=
  (((s.dropWhile isSpaceChar).reverse).dropWhile isSpaceChar).reverse

/-- Python `a or b` on strings: the empty string (and, at call sites where it
can occur, `None`, mapped to `[]` before the call) is falsy. -/
def pyOr (a b : List Char) : List Char := if a = [] then b else a

/-- Python substring test `needle in hay`. -/
def containsSub (needle : List Char) : List Char → Bool
  | [] => needle.isEmpty
  | c :: rest => needle.isPrefixOf (c :: rest) || containsSub needle rest

/-! ### Fingerprint (log_ingest_worker._idea_fingerprint, exec_worker.idea_fingerprint)

An idea field is `none` when the key is absent from the dict, `some none`
when the key is present with value `None`, and `some (some s)` when it holds
the string `s` (the pipeline only ever stores strings or `None` in these
fields).  Both computation sites hash the string
`f"{title}\n{action}\n{desc}"` with SHA-256; the digest is modelled by that
pre-hash string itself. -/

/-- A JSON-style idea record, restricted to the three fields the
fingerprint reads. -/
structure IdeaFields where
  title : Option (Option (List Char))
  recommended_action : Option (Option (List Char))
  description : Option (Option (List Char))

/-- `log_ingest_worker._stable_text`: `""` for `None`, else `str(s).strip()`;
composed with `idea.get(key)`, which yields `None` both for a missing key
and for a stored `None`. -/
def stable_text : Option (Option (List Char)) → List Char
  | none => []
  | some none => []
  | some (some s) => pyStrip s

/-- One field of `log_ingest_worker._idea_fingerprint`'s input:
`_stable_text(idea.get(key)).lower()`. -/
def ingestField (f : Option (Option (List Char))) : List Char :=
  pyLower (stable_text f)

/-- One field of `exec_worker.idea_fingerprint`'s input:
`str(idea.get(key, "")).lower().strip()`.  A missing key defaults to `""`,
but a key present with value `None` is stringified to `"None"`. -/
def execField : Option (Option (List Char)) → List Char
  | none => pyStrip (pyLower [])
  | some none => pyStrip (pyLower "None".data)
  | some (some s) => pyStrip (pyLower s)

/-- The string `log_ingest_worker._idea_fingerprint` feeds to SHA-256:
`f"{title}\n{action}\n{desc}"` over the normalized fields. -/
def idea_fingerprint_ingest (i : IdeaFields) : List Char :=
  ingestField i.title ++ '\n' :: ingestField i.recommended_action
    ++ '\n' :: ingestField i.description

/-- The string `exec_worker.idea_fingerprint` feeds to SHA-256, same layout,
with the fallback site's normalization. -/
def idea_fingerprint_exec (i : IdeaFields) : List Char :=
  execField i.title ++ '\n' :: execField i.recommended_action
    ++ '\n' :: execField i.description

/-! ### Evaluation engine (evaluation_engine.DeterministicEvaluationEngine)

Python floats are modelled as exact rationals.  Numeric payload fields can
hold a number, a string, or `None`; `float(...)` on them either succeeds or
raises, which the model captures with `Except`. -/

/-- A scalar JSON value in a numeric payload field. -/
inductive PyVal where
  | vnull
  | vnum (q : ℚ)
  | vstr (s : List Char)
deriving DecidableEq

/-- The exceptions relevant to evaluation.  `valueError` is what Python's
`float()` raises on a malformed string and `typeError` what it raises on
`None`; `scoringInputError` is the error class the specification names,
which the source never defines nor raises. -/
inductive PyError where
  | valueError (s : List Char)
  | typeError
  | scoringInputError (s : List Char)
deriving DecidableEq

def isDigitChar (c : Char) : Bool := '0' ≤ c && c ≤ '9'

/-- An IEEE double as the ops model sees one: an exact rational (Python's
binary rounding is abstracted to exact values, as everywhere in the
model) or one of the non-finite doubles that `float()` can also return
(from the "inf", "Infinity" and "nan" string forms). -/
inductive PyF where
  | fin (q : ℚ)
  | pinf
  | ninf
  | nan
deriving DecidableEq

/-- Consume `(["_"] digit)*` after a first digit already read into `acc`:
Python's digit groups allow single underscores between digits.  Returns
the accumulated value, the number of digits read, and the remainder. -/
def digitPartAux : List Char → Nat → Nat → Nat × Nat × List Char
  | '_' :: c :: rest, acc, n =>
      if isDigitChar c then digitPartAux rest (acc * 10 + (c.toNat - 48)) (n + 1)
      else (acc, n, '_' :: c :: rest)
  | c :: rest, acc, n =>
      if isDigitChar c then digitPartAux rest (acc * 10 + (c.toNat - 48)) (n + 1)
      else (acc, n, c :: rest)
  | [], acc, n => (acc, n, [])

/-- Python's `digitpart ::= digit (["_"] digit)*`, consumed from the
front; `none` when the input does not start with a digit. -/
def takeDigitPart : List Char → Option (Nat × Nat × List Char)
  | c :: rest =>
      if isDigitChar c then some (digitPartAux rest (c.toNat - 48) 1)
      else none
  | [] => none

/-- Python's `number ::= [digitpart] "." digitpart | digitpart ["."]`,
consumed from the front, as an exact rational plus the remainder. -/
def parseNumber? (s : List Char) : Option (ℚ × List Char) :=
  match takeDigitPart s with
  | some (d, _, rest) =>
      match rest with
      | '.' :: rest2 =>
          match takeDigitPart rest2 with
          | some (f, m, rest3) =>
              some (mkRat (d * 10 ^ m + f) (10 ^ m), rest3)
          | none => some (mkRat d 1, rest2)
      | _ => some (mkRat d 1, rest)
  | none =>
      match s with
      | '.' :: rest2 =>
          match takeDigitPart rest2 with
          | some (f, m, rest3) => some (mkRat f (10 ^ m), rest3)
          | none => none
      | _ => none

/-- The exact value of `10^e` for an integer exponent. -/
def qpow10 : ℤ → ℚ
  | .ofNat n => mkRat (10 ^ n) 1
  | .negSucc n => mkRat 1 (10 ^ (n + 1))

/-- Python's `exponent ::= ("e" | "E") [sign] digitpart`, consumed from
the front. -/
def parseExponent? : List Char → Option (ℤ × List Char)
  | c :: rest =>
      if c = 'e' ∨ c = 'E' then
        let signAndRest : ℤ × List Char :=
          match rest with
          | '+' :: t => (1, t)
          | '-' :: t => (-1, t)
          | _ => (1, rest)
        match takeDigitPart signAndRest.2 with
        | some (d, _, rest3) => some (signAndRest.1 * d, rest3)
        | none => none
      else none
  | [] => none

/-- CPython's `float(str)` grammar on ASCII input (the model's global
character set): optional surrounding whitespace and sign, then either the
case-insensitive forms `inf`/`infinity`/`nan`, or a decimal number with
optional single underscores between digits and an optional `e`/`E`
exponent.  `none` exactly when `float()` raises `ValueError`. -/
def pyParseFloat (s0 : List Char) : Option PyF :=
  let s := pyStrip s0
  let signAndRest : Bool × List Char :=
    match s with
    | '-' :: t => (true, t)
    | '+' :: t => (false, t)
    | _ => (false, s)
  let neg := signAndRest.1
  let s1 := signAndRest.2
  if pyLower s1 = "inf".data ∨ pyLower s1 = "infinity".data then
    some (if neg then .ninf else .pinf)
  else if pyLower s1 = "nan".data then some .nan
  else
    match parseNumber? s1 with
    | none => none
    | some (v, rest) =>
        let signed := if neg then -v else v
        match rest with
        | [] => some (.fin signed)
        | c :: _ =>
            if c = 'e' ∨ c = 'E' then
              match parseExponent? rest with
              | some (e, []) => some (.fin (signed * qpow10 e))
              | _ => none
            else none

/-- Python `float(v)` on a payload value: a JSON number is already a
(finite) float, a string is parsed by the `float(str)` grammar and raises
`ValueError` when malformed, and `None` raises `TypeError`. -/
def pyFloat : PyVal → Except PyError PyF
  | .vnum q => .ok (.fin q)
  | .vstr s =>
      match pyParseFloat s with
      | some f => .ok f
      | none => .error (.valueError s)
  | .vnull => .error .typeError

/-- `x + c` for a finite `c` (the severity bonus). -/
def PyF.addConst : PyF → ℚ → PyF
  | .fin q, c => .fin (q + c)
  | .pinf, _ => .pinf
  | .ninf, _ => .ninf
  | .nan, _ => .nan

/-- `x * c` for a finite positive `c` (the 0.3 risk weight). -/
def PyF.mulPos : PyF → ℚ → PyF
  | .fin q, c => .fin (q * c)
  | .pinf, _ => .pinf
  | .ninf, _ => .ninf
  | .nan, _ => .nan

/-- IEEE subtraction `x - y`. -/
def PyF.sub : PyF → PyF → PyF
  | .fin a, .fin b => .fin (a - b)
  | .fin _, .pinf => .ninf
  | .fin _, .ninf => .pinf
  | .pinf, .fin _ => .pinf
  | .pinf, .ninf => .pinf
  | .pinf, .pinf => .nan
  | .ninf, .fin _ => .ninf
  | .ninf, .pinf => .ninf
  | .ninf, .ninf => .nan
  | .nan, _ => .nan
  | _, .nan => .nan

/-- `max(0.0, min(1.0, score))` with Python's comparison-based builtins:
`min(1.0, x)` keeps `1.0` unless `x < 1.0` (so also for nan, whose
comparisons are false), and `max(0.0, y)` keeps `0.0` unless `y > 0.0`.
The result is always a finite value in `[0, 1]`. -/
def PyF.clamp01 : PyF → ℚ
  | .fin q => if q < 1 then (if 0 < q then q else 0) else 1
  | .ninf => 0
  | .pinf => 1
  | .nan => 1

/-- Python `round(x, 3)`.  Python rounds the binary double to the nearest
thousandth (ties to even on the binary value); the model rounds the exact
rational to the nearest thousandth, half up — the two agree except possibly
at exact decimal ties, which no claim exercises. -/
def round3 (q : ℚ) : ℚ :=
  mkRat ((2000 * q.num + (q.den : ℤ)) / (2 * (q.den : ℤ))) 1000

/-- The task's inner `payload` dict, restricted to the keys the two scoring
models read.  `none` = key missing or value `None` (both behave identically
at every read site below, which uses either `get(k, default)` on a
never-`None` field or an `or` fallback that treats `None` and `""` alike),
except the two numeric fields, whose `None` case is carried by
`PyVal.vnull`. -/
structure PayloadDict where
  idea : Option (List Char)
  title : Option (List Char)
  priority : Option (List Char)
  severity : Option (List Char)
  operational_risk : Option PyVal
  confidence : Option PyVal

def emptyPayload : PayloadDict := ⟨none, none, none, none, none, none⟩

/-- `(payload.get("idea", "") or payload.get("title", "") or "").lower()`. -/
def rnd_idea_text (p : PayloadDict) : List Char :=
  pyLower (pyOr (pyOr (p.idea.getD []) (p.title.getD [])) [])

/-- `(payload.get("priority") or "medium").lower()`. -/
def rnd_priority (p : PayloadDict) : List Char :=
  pyLower (pyOr (p.priority.getD []) "medium".data)

def score_feasibility (idea : List Char) : ℚ :=
  if ["sqs".data, "lambda".data, "api".data, "queue".data].any
      (fun k => containsSub k idea) then 0.9 else 0.6

def score_alignment (idea : List Char) : ℚ :=
  if ["agent".data, "distributed".data, "orchestration".data].any
      (fun k => containsSub k idea) then 0.95 else 0.7

def score_complexity (idea : List Char) : ℚ :=
  if ["ai".data, "ml".data, "blockchain".data, "crypto".data].any
      (fun k => containsSub k idea) then 0.7 else 0.3

def score_cost (idea : List Char) : ℚ :=
  if containsSub "distributed".data idea then 0.6 else 0.3

/-- The weighted score before the priority adjustment:
`feasibility*0.35 + alignment*0.35 - complexity*0.15 - cost*0.15`. -/
def rnd_weighted_raw (p : PayloadDict) : ℚ :=
  score_feasibility (rnd_idea_text p) * 0.35
    + score_alignment (rnd_idea_text p) * 0.35
    - score_complexity (rnd_idea_text p) * 0.15
    - score_cost (rnd_idea_text p) * 0.15

/-- The weighted score after the priority adjustment
(`+0.1` for "high", `-0.05` for "low"). -/
def rnd_weighted_adjusted (p : PayloadDict) : ℚ :=
  if rnd_priority p = "high".data then rnd_weighted_raw p + 0.1
  else if rnd_priority p = "low".data then rnd_weighted_raw p - 0.05
  else rnd_weighted_raw p

/-- `weighted_score = max(0.0, min(1.0, weighted_score))`. -/
def rnd_weighted_clamped (p : PayloadDict) : ℚ :=
  pyMax 0 (pyMin 1 (rnd_weighted_adjusted p))

/-- The `"scoring"` dict of an engine result: the R&D model stores keys
`feasibility`, `alignment`, `complexity_risk`, `resource_cost`; the ops
model stores keys `severity`, `operational_risk`, `llm_confidence`.
Neither variant carries a `complexity_risk`/`resource_cost` pair under any
other key name. -/
inductive ScoringMap where
  | rnd (feasibility alignment complexity_risk resource_cost : ℚ)
  | ops (severity : List Char) (operational_risk llm_confidence : PyF)
deriving DecidableEq

/-- The dict an engine `_evaluate_*` method returns, with keys
`final_decision`, `confidence_score`, `scoring`, `evaluation_model` —
and no key named `scoring_breakdown`. -/
structure EngineResult where
  final_decision : List Char
  confidence_score : ℚ
  scoring : ScoringMap
  evaluation_model : List Char
deriving DecidableEq

/-- `DeterministicEvaluationEngine._evaluate_rnd`. -/
def evaluate_rnd (p : PayloadDict) : EngineResult :=
  { final_decision :=
      if (0.6 : ℚ) ≤ rnd_weighted_clamped p then "EXECUTE".data
      else "REJECT".data
    confidence_score := round3 (rnd_weighted_clamped p)
    scoring := .rnd (score_feasibility (rnd_idea_text p))
      (score_alignment (rnd_idea_text p))
      (score_complexity (rnd_idea_text p))
      (score_cost (rnd_idea_text p))
    evaluation_model := "deterministic_rnd_v2".data }

/-- `(payload.get("severity") or "low").lower()`. -/
def ops_severity (p : PayloadDict) : List Char :=
  pyLower (pyOr (p.severity.getD []) "low".data)

/-- `DeterministicEvaluationEngine._evaluate_ops`.  `float()` is applied
first to `operational_risk` (default `0.3`), then to `confidence`
(default `0.5`); a raised exception propagates.  The clamp collapses any
non-finite score to a finite value in `[0, 1]`. -/
def evaluate_ops (p : PayloadDict) : Except PyError EngineResult :=
  let severity := ops_severity p
  match pyFloat (p.operational_risk.getD (.vnum 0.3)) with
  | .error e => .error e
  | .ok risk =>
      match pyFloat (p.confidence.getD (.vnum 0.5)) with
      | .error e => .error e
      | .ok confidence =>
          let bonus : ℚ :=
            if severity = "high".data then 0.4
            else if severity = "medium".data then 0.2
            else 0.05
          let score := (confidence.addConst bonus).sub (risk.mulPos 0.3)
          let score := score.clamp01
          .ok { final_decision :=
                  if (0.5 : ℚ) ≤ score then "EXECUTE".data else "REJECT".data
                confidence_score := round3 score
                scoring := .ops severity risk confidence
                evaluation_model := "deterministic_ops_v1".data }

/-- The `EVAL_MODE` environment switch: `auto | rnd | ops`. -/
inductive EvalMode where
  | auto
  | rndMode
  | opsMode
deriving DecidableEq

/-- The outer task dict, restricted to what `evaluate` reads:
`task_type` and the inner `payload` (`get("payload", {}) or {}`). -/
structure TaskPayload where
  task_type : Option (List Char)
  payload : Option PayloadDict

/-- `DeterministicEvaluationEngine.evaluate`: mode override first, else
`task_type == "LOG_SUGGESTION"` (upper-cased) routes to the ops model,
everything else to the R&D model. -/
def engine_evaluate (mode : EvalMode) (t : TaskPayload) :
    Except PyError EngineResult :=
  let task_type := pyUpper (pyOr (t.task_type.getD []) [])
  let payload := t.payload.getD emptyPayload
  match mode with
  | .rndMode => .ok (evaluate_rnd payload)
  | .opsMode => evaluate_ops payload
  | .auto =>
      if task_type = "LOG_SUGGESTION".data then evaluate_ops payload
      else .ok (evaluate_rnd payload)

/-! ### Policy engine (policy_engine.PolicyEngine) -/

/-- An evaluation dict as the policy engine receives it.  The engine-produced
dict stores its breakdown under key `"scoring"`; the policy engine reads key
`"scoring_breakdown"`.  Both keys are modelled so the mismatch is expressible.
(`eval_worker` additionally merges in `eval_id`/`task_id`/`trace_id`/
`evaluated_at`/`evaluated_by`, none of which the policy engine reads.) -/
structure EvalDict where
  confidence_score : Option ℚ
  scoring : Option ScoringMap
  scoring_breakdown : Option ScoringMap
  final_decision : Option (List Char)
deriving DecidableEq

/-- `breakdown.get("complexity_risk", 1.0)` on the dict found under the key
the policy engine reads; the ops-model dict has no such key, and a missing
dict defaults to `{}`. -/
def breakdown_complexity_risk : Option ScoringMap → ℚ
  | some (.rnd _ _ cr _) => cr
  | some (.ops _ _ _) => 1
  | none => 1

/-- `breakdown.get("resource_cost", 1.0)`, same reading. -/
def breakdown_resource_cost : Option ScoringMap → ℚ
  | some (.rnd _ _ _ rc) => rc
  | some (.ops _ _ _) => 1
  | none => 1

/-- The dict `PolicyEngine._result` builds (`policy_timestamp`, a wall-clock
read, is omitted from the model). -/
structure PolicyDecision where
  policy_mode : List Char
  policy_reasoning : List (List Char)
  policy_version : List Char
  evaluation_snapshot : EvalDict
deriving DecidableEq

def auto_execute_threshold : ℚ := 0.85
def max_allowed_complexity_risk : ℚ := 0.4
def max_allowed_resource_cost : ℚ := 0.4

/-- `PolicyEngine.evaluate`. -/
def policy_evaluate (e : EvalDict) : PolicyDecision :=
  let confidence := e.confidence_score.getD 0
  let complexity_risk := breakdown_complexity_risk e.scoring_breakdown
  let resource_cost := breakdown_resource_cost e.scoring_breakdown
  if e.final_decision = some "REJECT".data then
    { policy_mode := "REJECT".data
      policy_reasoning := ["Evaluation engine rejected idea.".data]
      policy_version := "v1_deterministic".data
      evaluation_snapshot := e }
  else if auto_execute_threshold ≤ confidence
      ∧ complexity_risk ≤ max_allowed_complexity_risk
      ∧ resource_cost ≤ max_allowed_resource_cost then
    { policy_mode := "AUTO_EXECUTE".data
      policy_reasoning := ["Meets confidence and risk thresholds.".data]
      policy_version := "v1_deterministic".data
      evaluation_snapshot := e }
  else
    { policy_mode := "REQUIRE_HITL".data
      policy_reasoning := ["Does not meet auto execution thresholds.".data]
      policy_version := "v1_deterministic".data
      evaluation_snapshot := e }

/-- The evaluation dict an engine result denotes when handed to the policy
engine.  The engine's keys are `final_decision`, `confidence_score`,
`scoring`, `evaluation_model` (and the envelope metadata `eval_worker`
merges in); no key is named `scoring_breakdown`, so that field is `none`. -/
def engineResultToEvalDict (r : EngineResult) : EvalDict :=
  { confidence_score := some r.confidence_score
    scoring := some r.scoring
    scoring_breakdown := none
    final_decision := some r.final_decision }

/-! ### Execution gate (exec_worker.ExecWorker.execute_task) -/

/-- The HITL decision envelope, restricted to the keys `execute_task`
reads: `decision` (`none` = missing or `None`), `decided_by`, and
`evaluation` (`none` = missing or `None`, both normalized to `{}` by
`envelope.get("evaluation", {}) or {}`). -/
structure Envelope where
  decision : Option (List Char)
  decided_by : Option (List Char)
  evaluation : Option EvalDict
deriving DecidableEq

def emptyEvalDict : EvalDict := ⟨none, none, none, none⟩

/-- The dict `execute_task` returns.  The blocked branch's dict carries no
`approved_by` key, modelled as `none`. -/
structure ExecTaskResult where
  status : List Char
  notes : List Char
  approved_by : Option (List Char)
  evaluation : EvalDict
deriving DecidableEq

/-- `ExecWorker.execute_task`. -/
def execute_task (env : Envelope) : ExecTaskResult :=
  let evaluation := env.evaluation.getD emptyEvalDict
  if env.decision ≠ some "APPROVE".data then
    { status := "BLOCKED".data
      notes := "Execution blocked. Missing explicit HITL approval.".data
      approved_by := none
      evaluation := evaluation }
  else
    { status := "COMPLETED".data
      notes := "Simulated execution complete (HITL approved).".data
      approved_by := env.decided_by
      evaluation := evaluation }

/-! ### Suppression index (log_ingest_worker.LogIngestWorker) -/

/-- The `executed_at` field of a stored execution record, as the builder
sees it: `missing` covers an absent key, `None`, or `""` (all falsy, so the
timestamp check is skipped); `unparseable` a non-empty string on which
`datetime.fromisoformat` raises; `parsed t` a timestamp that parses to the
UTC instant `t` (in minutes; a naive timestamp is assumed UTC). -/
inductive TimeField where
  | missing
  | unparseable
  | parsed (t : ℤ)
deriving DecidableEq

/-- An object listed under the executions area of the bucket, after
`_safe_json_loads` (an unreadable body parses to `{}`, i.e. all fields
missing).  `fingerprint` is `none` when the key is absent or `None`. -/
structure ExecObj where
  status : Option (List Char)
  executed_at : TimeField
  fingerprint : Option (List Char)
deriving DecidableEq

/-- `fp = data.get("fingerprint"); if fp: done.add(fp)` — falsy
fingerprints (missing, `None`, `""`) are not added. -/
def addFp (fp : Option (List Char)) (s : List (List Char)) : List (List Char) :=
  match fp with
  | some f => if f = [] then s else f :: s
  | none => s

/-- The loop body of `LogIngestWorker._build_recent_completed_fingerprints`
over the listed objects, with `cutoff = now - SUPPRESSION_WINDOW_MINUTES`:
skip unless `_stable_text(status).upper() == "COMPLETED"`; if `executed_at`
is truthy, skip when it fails to parse or parses to a time `< cutoff`;
then add a truthy fingerprint. -/
def buildCompletedFingerprints (cutoff : ℤ) : List ExecObj → List (List Char)
  | [] => []
  | o :: rest =>
      let acc := buildCompletedFingerprints cutoff rest
      if pyUpper (stable_text (o.status.map some)) ≠ "COMPLETED".data then acc
      else
        match o.executed_at with
        | .missing => addFp o.fingerprint acc
        | .unparseable => acc
        | .parsed t => if t < cutoff then acc else addFp o.fingerprint acc

/-- An object listed under the evaluations area of the bucket:
`lastModified` is the storage listing's `LastModified` stamp (in minutes),
and `fingerprint` the value of
`data["original_payload"]["payload"]["fingerprint"]`, `none` when any step
of that chain is missing, not a dict, or falsy. -/
structure EvalObj where
  lastModified : Option ℤ
  fingerprint : Option (List Char)
deriving DecidableEq

/-- The loop body of `LogIngestWorker._build_recent_pending_fingerprints`
with `cutoff = now - PENDING_SUPPRESSION_MINUTES`: skip objects last
modified before the cutoff, then add a truthy nested fingerprint. -/
def buildPendingFingerprints (cutoff : ℤ) : List EvalObj → List (List Char)
  | [] => []
  | o :: rest =>
      let acc := buildPendingFingerprints cutoff rest
      match o.lastModified with
      | some lm => if lm < cutoff then acc else addFp o.fingerprint acc
      | none => addFp o.fingerprint acc

/-- The listing both builders request: one `list_objects_v2` call with
`MaxKeys=50` and no continuation-token pagination, i.e. at most the first
50 objects of the bucket area. -/
def listMaxKeys50 {α : Type} (bucket : List α) : List α := bucket.take 50

/-- The completed set as built from the bucket: listing then loop. -/
def buildCompletedFromBucket (cutoff : ℤ) (bucket : List ExecObj) :
    List (List Char) :=
  buildCompletedFingerprints cutoff (listMaxKeys50 bucket)

/-- The pending set as built from the bucket: listing then loop. -/
def buildPendingFromBucket (cutoff : ℤ) (bucket : List EvalObj) :
    List (List Char) :=
  buildPendingFingerprints cutoff (listMaxKeys50 bucket)

/-- `LogIngestWorker.is_duplicate` against the two sets built at worker
start: `_idea_fingerprint(suggestion)` is in the completed set or in the
pending set. -/
def is_duplicate (completed pending : List (List Char))
    (suggestion : IdeaFields) : Bool :=
  decide (idea_fingerprint_ingest suggestion ∈ completed)
    || decide (idea_fingerprint_ingest suggestion ∈ pending)

/-! ### Evaluation worker acknowledgement flow (eval_worker.EvalWorker) -/

/-- What one `s3.put_object` / `sqs.send_message` attempt does:
succeed, raise a `botocore.exceptions.BotoCoreError`, or raise any other
exception (e.g. a `botocore ClientError`, which does not subclass
`BotoCoreError`). -/
inductive CallOutcome where
  | ok
  | botoCoreError
  | otherError
deriving DecidableEq

/-- `EvalWorker._write_s3_json`: the `put_object` call is wrapped in
`try/except botocore.exceptions.BotoCoreError`, which logs and swallows
that class; any other exception propagates to the caller. -/
def write_s3_json : CallOutcome → Except Unit Unit
  | .ok => .ok ()
  | .botoCoreError => .ok ()
  | .otherError => .error ()

/-- `EvalWorker._send_hitl`: same shape — only `BotoCoreError` is caught. -/
def send_hitl : CallOutcome → Except Unit Unit
  | .ok => .ok ()
  | .botoCoreError => .ok ()
  | .otherError => .error ()

/-- The tail of `EvalWorker.run_once` after a message was received and the
engine returned a result: write the evaluation record, then either send to
the HITL queue (decision `EXECUTE`) or write a rejection record, then
delete the inbound message.  An exception escaping any step aborts
`run_once` (caught by `run_forever`) before `sqs.delete_message` runs.
Returns whether the inbound message was deleted. -/
def run_once_message_deleted (final_decision : List Char)
    (evalWrite branchCall : CallOutcome) : Bool :=
  match write_s3_json evalWrite with
  | .error _ => false
  | .ok _ =>
      let branch :=
        if final_decision = "EXECUTE".data then send_hitl branchCall
        else write_s3_json branchCall
      match branch with
      | .error _ => false
      | .ok _ => true

/-! ### Concrete instances used by the claim theorems -/

/-- The C5 input: an R&D payload whose idea text contains
"distributed agent bus using SQS" with priority "high". -/
def c5Payload : PayloadDict :=
  { idea := some "distributed agent bus using SQS".data
    title := none
    priority := some "high".data
    severity := none
    operational_risk := none
    confidence := none }

/-- The C7 input: an ops payload whose operational_risk is the non-numeric
string "abc". -/
def c7Payload : PayloadDict :=
  { idea := none
    title := none
    priority := none
    severity := none
    operational_risk := some (.vstr "abc".data)
    confidence := none }

/-- A second C7 input: operational_risk absent (so `get` defaults it to
0.3) and a malformed confidence string. -/
def c7ConfPayload : PayloadDict :=
  { idea := none
    title := none
    priority := none
    severity := none
    operational_risk := none
    confidence := some (.vstr "12x".data) }

/-- A C7 input with a Python-parseable exponent-form risk string, on which
the evaluation completes normally. -/
def c7ExpPayload : PayloadDict :=
  { idea := none
    title := none
    priority := none
    severity := none
    operational_risk := some (.vstr "1e-1".data)
    confidence := some (.vnum 0.5) }

/-- Whether an ops evaluation outcome is a raised ScoringInputError. -/
def isScoringInputErrorResult : Except PyError EngineResult → Bool
  | .error (.scoringInputError _) => true
  | _ => false

/-- The C6 counterexample idea: the `title` key is present with value
`None`; the other two fields are absent. -/
def c6Idea : IdeaFields := ⟨some none, none, none⟩

def c6IdeaA : IdeaFields :=
  ⟨some (some "  Fix DNS  ".data), none, some (some "restart resolver".data)⟩

def c6IdeaB : IdeaFields :=
  ⟨some (some "fix dns".data), none, some (some "RESTART Resolver ".data)⟩

/-- The C4 counterexample record: status COMPLETED, fingerprint "f", and a
missing `executed_at` field. -/
def c4Obj : ExecObj := ⟨some "COMPLETED".data, .missing, some "f".data⟩

/-- A concrete idea used to instantiate the suppression scenarios. -/
def c4Idea : IdeaFields := ⟨some (some "restart resolver".data), none, none⟩

/-- The fingerprint record of `c4Idea`, COMPLETED at time 950. -/
def c4InWindowObj : ExecObj :=
  ⟨some "COMPLETED".data, .parsed 950, some (idea_fingerprint_ingest c4Idea)⟩

/-- The fingerprint record of `c4Idea`, COMPLETED at time 939, just before
a cutoff of 940. -/
def c4OutsideObj : ExecObj :=
  ⟨some "COMPLETED".data, .parsed 939, some (idea_fingerprint_ingest c4Idea)⟩

/-- A filler record whose body did not parse to a COMPLETED execution. -/
def c10Filler : ExecObj := ⟨none, .missing, none⟩

/-- The idea whose record sits beyond the first 50 listed objects. -/
def c10Idea : IdeaFields := ⟨some (some "rotate logs".data), none, none⟩

/-- A COMPLETED in-window record of `c10Idea`. -/
def c10Target : ExecObj :=
  ⟨some "COMPLETED".data, .parsed 950, some (idea_fingerprint_ingest c10Idea)⟩

/-- A bucket area with 50 filler objects followed by the target record. -/
def c10Bucket : List ExecObj := List.replicate 50 c10Filler ++ [c10Target]

/-! ### Helper lemmas -/

theorem isSpaceChar_pyLowerChar (c : Char) :
    isSpaceChar (pyLowerChar c) = isSpaceChar c := by
  unfold pyLowerChar
  cases hf : casePairs.find? (fun p => p.1 == c) with
  | none => rfl
  | some p =>
      have hmem : p ∈ casePairs := List.mem_of_find?_eq_some hf
      have hc : p.1 = c := by simpa using List.find?_some hf
      subst hc
      fin_cases hmem <;> rfl

theorem dropWhile_isSpace_pyLower (l : List Char) :
    (l.map pyLowerChar).dropWhile isSpaceChar
      = (l.dropWhile isSpaceChar).map pyLowerChar := by
  induction l with
  | nil => rfl
  | cons c t ih =>
      simp only [List.map_cons, List.dropWhile_cons, isSpaceChar_pyLowerChar]
      by_cases h : isSpaceChar c = true
      · simp [h, ih]
      · simp [h]

/-- Stripping commutes with lower-casing: the assignment-site normalization
`strip` then `lower` and the fallback-site normalization `lower` then
`strip` agree on every string. -/
theorem pyStrip_pyLower (s : List Char) :
    pyStrip (pyLower s) = pyLower (pyStrip s) := by
  unfold pyStrip pyLower
  rw [dropWhile_isSpace_pyLower, ← List.map_reverse, dropWhile_isSpace_pyLower,
    ← List.map_reverse]

theorem execField_eq_ingestField (f : Option (Option (List Char)))
    (h : f ≠ some none) : execField f = ingestField f := by
  match f with
  | none => rfl
  | some none => exact absurd rfl h
  | some (some s) =>
      show pyStrip (pyLower s) = pyLower (pyStrip s)
      exact pyStrip_pyLower s

/-! ### Claim theorems -/

/-- C1: the Execution Gate returns status COMPLETED if and only if the
envelope's `decision` field equals the string "APPROVE" exactly; for any
other value (REJECT, `None`, empty, unrecognized, or a missing field) it
returns status BLOCKED with a blocking reason and the evaluation snapshot
that was present, never a success. -/
theorem C1_execution_gate (env : Envelope) :
    ((execute_task env).status = "COMPLETED".data
      ↔ env.decision = some "APPROVE".data)
    ∧ (env.decision ≠ some "APPROVE".data →
        (execute_task env).status = "BLOCKED".data
        ∧ (execute_task env).notes
            = "Execution blocked. Missing explicit HITL approval.".data
        ∧ (execute_task env).evaluation = env.evaluation.getD emptyEvalDict) := by
  by_cases h : env.decision = some "APPROVE".data
  · refine ⟨by simp [execute_task, h], fun hne => absurd h hne⟩
  · refine ⟨?_, fun _ => by simp [execute_task, h]⟩
    simp only [execute_task, if_pos h]
    constructor
    · intro hs
      exact absurd hs (by decide)
    · intro hd
      exact absurd hd h

/-- C1 witness: a REJECT decision is blocked, at a concrete envelope. -/
theorem C1_execution_gate_witness :
    (execute_task ⟨some "REJECT".data, none, none⟩).status = "BLOCKED".data :=
  ((C1_execution_gate ⟨some "REJECT".data, none, none⟩).2 (by decide)).1

/-- C2 counterexample: an evaluation whose engine-produced breakdown — the
map stored under the engine's key `"scoring"` — records complexity_risk 0.2
and resource_cost 0.1, with confidence_score 0.9 and final_decision
EXECUTE, satisfies every condition the claim states for AUTO_EXECUTE, yet
`PolicyEngine.evaluate` returns REQUIRE_HITL (it reads the absent key
`"scoring_breakdown"` and defaults both risk values to 1.0). -/
theorem C2_counterexample :
    (engineResultToEvalDict
        { final_decision := "EXECUTE".data
          confidence_score := 0.9
          scoring := .rnd 0.9 0.95 0.2 0.1
          evaluation_model := "deterministic_rnd_v2".data }).final_decision
        ≠ some "REJECT".data
    ∧ auto_execute_threshold ≤
        ((engineResultToEvalDict
          { final_decision := "EXECUTE".data
            confidence_score := 0.9
            scoring := .rnd 0.9 0.95 0.2 0.1
            evaluation_model := "deterministic_rnd_v2".data }).confidence_score.getD 0)
    ∧ breakdown_complexity_risk
        (engineResultToEvalDict
          { final_decision := "EXECUTE".data
            confidence_score := 0.9
            scoring := .rnd 0.9 0.95 0.2 0.1
            evaluation_model := "deterministic_rnd_v2".data }).scoring
        ≤ max_allowed_complexity_risk
    ∧ breakdown_resource_cost
        (engineResultToEvalDict
          { final_decision := "EXECUTE".data
            confidence_score := 0.9
            scoring := .rnd 0.9 0.95 0.2 0.1
            evaluation_model := "deterministic_rnd_v2".data }).scoring
        ≤ max_allowed_resource_cost
    ∧ (policy_evaluate (engineResultToEvalDict
          { final_decision := "EXECUTE".data
            confidence_score := 0.9
            scoring := .rnd 0.9 0.95 0.2 0.1
            evaluation_model := "deterministic_rnd_v2".data })).policy_mode
        = "REQUIRE_HITL".data := by
  refine ⟨by decide, by decide, by decide, by decide, by decide⟩

/-- C2 amended: for a non-REJECT evaluation, `PolicyEngine.evaluate` returns
AUTO_EXECUTE iff confidence_score ≥ 0.85 and the `complexity_risk` and
`resource_cost` read from the evaluation's `"scoring_breakdown"` key
(each defaulting to 1.0 when the key or entry is absent — in particular for
every dict the Evaluation Engine produces, which stores its breakdown under
`"scoring"` instead) are each at most 0.4; in every other case it returns
REQUIRE_HITL. -/
theorem C2_amended (e : EvalDict)
    (h : e.final_decision ≠ some "REJECT".data) :
    ((policy_evaluate e).policy_mode = "AUTO_EXECUTE".data
      ↔ (auto_execute_threshold ≤ e.confidence_score.getD 0
         ∧ breakdown_complexity_risk e.scoring_breakdown
             ≤ max_allowed_complexity_risk
         ∧ breakdown_resource_cost e.scoring_breakdown
             ≤ max_allowed_resource_cost))
    ∧ ((policy_evaluate e).policy_mode = "AUTO_EXECUTE".data
        ∨ (policy_evaluate e).policy_mode = "REQUIRE_HITL".data) := by
  simp only [policy_evaluate, if_neg h]
  by_cases hc : auto_execute_threshold ≤ e.confidence_score.getD 0
      ∧ breakdown_complexity_risk e.scoring_breakdown
          ≤ max_allowed_complexity_risk
      ∧ breakdown_resource_cost e.scoring_breakdown
          ≤ max_allowed_resource_cost
  · exact ⟨⟨fun _ => hc, fun _ => by rw [if_pos hc]⟩,
      Or.inl (by rw [if_pos hc])⟩
  · rw [if_neg hc]
    exact ⟨⟨fun hs => absurd
        (show "REQUIRE_HITL".data = "AUTO_EXECUTE".data from hs) (by decide),
      fun hcond => absurd hcond hc⟩, Or.inr rfl⟩

/-- C2 amended witness: confidence 0.90 with complexity_risk 0.2 and
resource_cost 0.1 stored under the `"scoring_breakdown"` key is
auto-executed. -/
theorem C2_amended_witness :
    (policy_evaluate
      { confidence_score := some 0.9
        scoring := none
        scoring_breakdown := some (.rnd 0.9 0.95 0.2 0.1)
        final_decision := some "EXECUTE".data }).policy_mode
      = "AUTO_EXECUTE".data :=
  (C2_amended
    { confidence_score := some 0.9
      scoring := none
      scoring_breakdown := some (.rnd 0.9 0.95 0.2 0.1)
      final_decision := some "EXECUTE".data } (by decide)).1.mpr (by decide)

/-- C3: an evaluation with final_decision REJECT is vetoed unconditionally:
`PolicyEngine.evaluate` returns policy_mode REJECT whatever the
confidence_score and whatever risk and cost values any breakdown holds. -/
theorem C3_policy_hard_veto (e : EvalDict)
    (h : e.final_decision = some "REJECT".data) :
    (policy_evaluate e).policy_mode = "REJECT".data := by
  simp [policy_evaluate, h]

/-- C3 witness: rejected even at confidence 1.0 with zero risk and cost. -/
theorem C3_policy_hard_veto_witness :
    (policy_evaluate
      { confidence_score := some 1
        scoring := none
        scoring_breakdown := some (.rnd 1 1 0 0)
        final_decision := some "REJECT".data }).policy_mode
      = "REJECT".data :=
  C3_policy_hard_veto
    { confidence_score := some 1
      scoring := none
      scoring_breakdown := some (.rnd 1 1 0 0)
      final_decision := some "REJECT".data } (by decide)

/-- C9: the Evaluation Engine stores its breakdown under the key
`"scoring"`, while `PolicyEngine.evaluate` reads `"scoring_breakdown"`
and defaults both risk values to 1.0 when it is absent; hence no
engine-produced evaluation is ever assigned policy_mode AUTO_EXECUTE, and
every non-REJECT engine evaluation yields REQUIRE_HITL regardless of its
confidence_score. -/
theorem C9_engine_policy_never_auto (mode : EvalMode) (t : TaskPayload)
    (r : EngineResult) (_h : engine_evaluate mode t = .ok r) :
    (policy_evaluate (engineResultToEvalDict r)).policy_mode
        ≠ "AUTO_EXECUTE".data
    ∧ (r.final_decision ≠ "REJECT".data →
        (policy_evaluate (engineResultToEvalDict r)).policy_mode
          = "REQUIRE_HITL".data) := by
  have hcond : ¬(auto_execute_threshold ≤
        (engineResultToEvalDict r).confidence_score.getD 0
      ∧ breakdown_complexity_risk (engineResultToEvalDict r).scoring_breakdown
          ≤ max_allowed_complexity_risk
      ∧ breakdown_resource_cost (engineResultToEvalDict r).scoring_breakdown
          ≤ max_allowed_resource_cost) := by
    rintro ⟨-, hcr, -⟩
    exact absurd
      (show breakdown_complexity_risk none ≤ max_allowed_complexity_risk
        from hcr) (by decide)
  by_cases hrej : (engineResultToEvalDict r).final_decision
      = some "REJECT".data
  · have hmode : (policy_evaluate (engineResultToEvalDict r)).policy_mode
        = "REJECT".data := by
      simp [policy_evaluate, hrej]
    refine ⟨?_, fun hne => absurd (Option.some.inj hrej) hne⟩
    rw [hmode]
    decide
  · have hmode : (policy_evaluate (engineResultToEvalDict r)).policy_mode
        = "REQUIRE_HITL".data := by
      simp [policy_evaluate, hrej, if_neg hcond]
    rw [hmode]
    exact ⟨by decide, fun _ => rfl⟩

/-- C9 witness: a concrete engine run (R&D model on an empty payload) whose
policy decision is not AUTO_EXECUTE. -/
theorem C9_engine_policy_never_auto_witness :
    (policy_evaluate
      (engineResultToEvalDict (evaluate_rnd emptyPayload))).policy_mode
      ≠ "AUTO_EXECUTE".data :=
  (C9_engine_policy_never_auto .rndMode ⟨none, none⟩
    (evaluate_rnd emptyPayload) rfl).1

/-- C5 counterexample: on the claimed input the raw weighted score is not
0.5475 and the priority-adjusted score is not 0.6475 (they are 0.5125 and
0.6125: 0.35·0.9 + 0.35·0.95 − 0.15·0.3 − 0.15·0.6 = 0.5125). -/
theorem C5_counterexample :
    rnd_weighted_raw c5Payload ≠ (0.5475 : ℚ)
    ∧ rnd_weighted_adjusted c5Payload ≠ (0.6475 : ℚ) :=
  ⟨by decide, by decide⟩

/-- C5 amended: the input yields sub-scores feasibility 0.9, alignment
0.95, complexity_risk 0.3, resource_cost 0.6, a raw weighted score of
0.5125 raised by the 0.10 high-priority bonus to 0.6125, and
final_decision EXECUTE. -/
theorem C5_amended :
    score_feasibility (rnd_idea_text c5Payload) = 0.9
    ∧ score_alignment (rnd_idea_text c5Payload) = 0.95
    ∧ score_complexity (rnd_idea_text c5Payload) = 0.3
    ∧ score_cost (rnd_idea_text c5Payload) = 0.6
    ∧ rnd_weighted_raw c5Payload = 0.5125
    ∧ rnd_weighted_adjusted c5Payload = 0.6125
    ∧ (evaluate_rnd c5Payload).final_decision = "EXECUTE".data
    ∧ (evaluate_rnd c5Payload).scoring = .rnd 0.9 0.95 0.3 0.6 :=
  ⟨by decide, by decide, by decide, by decide, by decide, by decide,
    by decide, by decide⟩

/-- The float() model accepts the exponent, underscore and non-finite
forms Python accepts, rejects what Python rejects, and the evaluation
completes normally on a parseable exponent-form field. -/
theorem pyParseFloat_python_forms :
    pyParseFloat "1e5".data = some (.fin 100000)
    ∧ pyParseFloat "1_0".data = some (.fin 10)
    ∧ pyParseFloat " -2.5e-1 ".data = some (.fin (-(1/4 : ℚ)))
    ∧ pyParseFloat "inf".data = some .pinf
    ∧ pyParseFloat "-Infinity".data = some .ninf
    ∧ pyParseFloat "nan".data = some .nan
    ∧ pyParseFloat ".5".data = some (.fin (1/2))
    ∧ pyParseFloat "5.e1".data = some (.fin 50)
    ∧ pyParseFloat "abc".data = none
    ∧ pyParseFloat "1__0".data = none
    ∧ pyParseFloat "1_".data = none
    ∧ pyParseFloat "1e".data = none
    ∧ pyParseFloat "".data = none
    ∧ evaluate_ops c7ExpPayload
        = .ok { final_decision := "EXECUTE".data
                confidence_score := 0.52
                scoring := .ops "low".data (.fin (mkRat 1 10)) (.fin 0.5)
                evaluation_model := "deterministic_ops_v1".data } := by
  refine ⟨by decide, by decide, by decide, by decide, by decide, by decide,
    by decide, by decide, by decide, by decide, by decide, by decide,
    by decide, rfl⟩

theorem pyFloat_no_scoringInputError (v : PyVal) (e : PyError)
    (h : pyFloat v = .error e) :
    ∀ s, e ≠ .scoringInputError s := by
  intro s
  match v with
  | .vnum q => exact absurd h (by simp [pyFloat])
  | .vnull =>
      simp only [pyFloat, Except.error.injEq] at h
      rw [← h]
      simp
  | .vstr t =>
      cases hp : pyParseFloat t with
      | none =>
          simp only [pyFloat, hp, Except.error.injEq] at h
          rw [← h]
          simp
      | some q => simp [pyFloat, hp] at h

/-- C7 counterexample: the ops model evaluated on a payload whose
operational_risk holds the non-numeric string "abc" fails with the builtin
ValueError that Python's float() raises — not with a ScoringInputError,
a class the source never defines nor raises. -/
theorem C7_counterexample :
    evaluate_ops c7Payload = .error (.valueError "abc".data)
    ∧ isScoringInputErrorResult (evaluate_ops c7Payload) = false :=
  ⟨rfl, rfl⟩

/-- C7 amended: whenever the operational_risk or confidence field holds a
malformed numeric string (one Python's float() cannot parse), the ops
evaluation fails with the ValueError raised by float() rather than
silently substituting a default — operational_risk is converted first, and
a malformed confidence raises whenever the risk conversion succeeded (risk
absent and defaulted, a number, or any parseable string, non-finite forms
included); a field holding None likewise fails, with float()'s TypeError;
and the failure is never the ScoringInputError the claim names, since no
input produces one. -/
theorem C7_amended :
    (∀ p s, p.operational_risk = some (.vstr s) → pyParseFloat s = none →
      evaluate_ops p = .error (.valueError s))
    ∧ (∀ p s r, pyFloat (p.operational_risk.getD (.vnum 0.3)) = .ok r →
        p.confidence = some (.vstr s) → pyParseFloat s = none →
        evaluate_ops p = .error (.valueError s))
    ∧ (∀ p, p.operational_risk = some .vnull →
        evaluate_ops p = .error .typeError)
    ∧ (∀ p r, pyFloat (p.operational_risk.getD (.vnum 0.3)) = .ok r →
        p.confidence = some .vnull →
        evaluate_ops p = .error .typeError)
    ∧ (∀ p, isScoringInputErrorResult (evaluate_ops p) = false) := by
  refine ⟨?_, ?_, ?_, ?_, ?_⟩
  · intro p s h hp
    simp [evaluate_ops, h, pyFloat, hp]
  · intro p s r hr hc hp
    unfold evaluate_ops
    rw [hr, hc]
    simp [pyFloat, hp]
  · intro p h
    simp [evaluate_ops, h, pyFloat]
  · intro p r hr hc
    unfold evaluate_ops
    rw [hr, hc]
    simp [pyFloat]
  · intro p
    unfold evaluate_ops
    cases hr : pyFloat (p.operational_risk.getD (.vnum 0.3)) with
    | error e =>
        have := pyFloat_no_scoringInputError _ e hr
        cases e with
        | valueError s => rfl
        | typeError => rfl
        | scoringInputError s => exact absurd rfl (this s)
    | ok risk =>
        cases hc : pyFloat (p.confidence.getD (.vnum 0.5)) with
        | error e =>
            have := pyFloat_no_scoringInputError _ e hc
            cases e with
            | valueError s => rfl
            | typeError => rfl
            | scoringInputError s => exact absurd rfl (this s)
        | ok confidence => rfl

/-- C7 amended witness: the failure law applied at a malformed risk string
("abc"), and at a malformed confidence string ("12x") under an absent,
defaulted operational_risk. -/
theorem C7_amended_witness :
    evaluate_ops c7Payload = .error (.valueError "abc".data)
    ∧ evaluate_ops c7ConfPayload = .error (.valueError "12x".data) :=
  ⟨C7_amended.1 c7Payload "abc".data rfl rfl,
    C7_amended.2.1 c7ConfPayload "12x".data (.fin 0.3) rfl rfl rfl⟩

/-- C6 counterexample: on an idea whose title field holds None, the
assignment site (`log_ingest_worker._idea_fingerprint`) feeds SHA-256 the
string "\n\n" while the fallback site (`exec_worker.idea_fingerprint`)
stringifies None to "None" and feeds "none\n\n"; the hashed inputs differ,
so the two sites' digests disagree (barring a SHA-256 collision). -/
theorem C6_counterexample :
    idea_fingerprint_ingest c6Idea = "\n\n".data
    ∧ idea_fingerprint_exec c6Idea = "none\n\n".data
    ∧ idea_fingerprint_ingest c6Idea ≠ idea_fingerprint_exec c6Idea :=
  ⟨rfl, rfl, by decide⟩

/-- C6 amended: whenever each of the three fields is absent or holds a
string (never a present None), the two fingerprint sites feed identical
strings to SHA-256 and therefore return the same digest; and that string
depends only on the stripped, lower-cased title, recommended_action and
description, so any two ideas agreeing on those three normalized fields —
however they differ in case, surrounding whitespace, or any other field —
receive equal fingerprints. -/
theorem C6_amended (i j : IdeaFields)
    (hti : i.title ≠ some none)
    (hai : i.recommended_action ≠ some none)
    (hdi : i.description ≠ some none)
    (ht : ingestField i.title = ingestField j.title)
    (ha : ingestField i.recommended_action = ingestField j.recommended_action)
    (hd : ingestField i.description = ingestField j.description) :
    idea_fingerprint_exec i = idea_fingerprint_ingest i
    ∧ idea_fingerprint_ingest i = idea_fingerprint_ingest j := by
  constructor
  · unfold idea_fingerprint_exec idea_fingerprint_ingest
    rw [execField_eq_ingestField _ hti, execField_eq_ingestField _ hai,
      execField_eq_ingestField _ hdi]
  · unfold idea_fingerprint_ingest
    rw [ht, ha, hd]

/-- C6 amended witness: two ideas differing only in case and surrounding
whitespace get the same digest input at both sites. -/
theorem C6_amended_witness :
    idea_fingerprint_exec c6IdeaA = idea_fingerprint_ingest c6IdeaA
    ∧ idea_fingerprint_ingest c6IdeaA = idea_fingerprint_ingest c6IdeaB :=
  C6_amended c6IdeaA c6IdeaB (by decide) (by decide) (by decide)
    (by decide) (by decide) (by decide)

theorem mem_addFp (fp : List Char) (f : Option (List Char))
    (s : List (List Char)) :
    fp ∈ addFp f s ↔ ((f = some fp ∧ fp ≠ []) ∨ fp ∈ s) := by
  match f with
  | none => simp [addFp]
  | some g =>
      by_cases hg : g = []
      · subst hg
        simp only [addFp, if_pos rfl]
        constructor
        · exact Or.inr
        · rintro (⟨hfg, hne⟩ | h)
          · exact absurd (Option.some.inj hfg).symm hne
          · exact h
      · simp only [addFp, if_neg hg, List.mem_cons]
        constructor
        · rintro (rfl | h)
          · exact Or.inl ⟨rfl, hg⟩
          · exact Or.inr h
        · rintro (⟨hfg, -⟩ | h)
          · exact Or.inl (Option.some.inj hfg).symm
          · exact Or.inr h

/-- Membership in the "recently completed" set, exactly as the code builds
it: a listed record contributes its fingerprint iff the fingerprint is
truthy, the normalized status is COMPLETED, and the `executed_at` field is
missing/falsy, or parses to a time not before the cutoff. -/
theorem mem_buildCompletedFingerprints (cutoff : ℤ) (objs : List ExecObj)
    (fp : List Char) :
    fp ∈ buildCompletedFingerprints cutoff objs ↔
      ∃ o ∈ objs, o.fingerprint = some fp ∧ fp ≠ []
        ∧ pyUpper (stable_text (o.status.map some)) = "COMPLETED".data
        ∧ (o.executed_at = .missing
           ∨ ∃ t, o.executed_at = .parsed t ∧ ¬ t < cutoff) := by
  induction objs with
  | nil => simp [buildCompletedFingerprints]
  | cons o rest ih =>
      by_cases hs : pyUpper (stable_text (o.status.map some))
          = "COMPLETED".data
      · have hcond : ¬ (pyUpper (stable_text (o.status.map some))
            ≠ "COMPLETED".data) := not_not_intro hs
        cases hta : o.executed_at with
        | missing =>
            have hstep : buildCompletedFingerprints cutoff (o :: rest)
                = addFp o.fingerprint
                    (buildCompletedFingerprints cutoff rest) := by
              simp [buildCompletedFingerprints, hcond, hta]
            rw [hstep, mem_addFp, ih]
            constructor
            · rintro (⟨hfp, hne⟩ | ⟨o', ho', h'⟩)
              · exact ⟨o, List.mem_cons_self o rest,
                  hfp, hne, hs, Or.inl hta⟩
              · exact ⟨o', List.mem_cons_of_mem _ ho', h'⟩
            · rintro ⟨o', ho', hfp, hne, hc, hdisj⟩
              rcases List.mem_cons.mp ho' with rfl | ho'
              · exact Or.inl ⟨hfp, hne⟩
              · exact Or.inr ⟨o', ho', hfp, hne, hc, hdisj⟩
        | unparseable =>
            have hstep : buildCompletedFingerprints cutoff (o :: rest)
                = buildCompletedFingerprints cutoff rest := by
              simp [buildCompletedFingerprints, hcond, hta]
            rw [hstep, ih]
            constructor
            · rintro ⟨o', ho', h'⟩
              exact ⟨o', List.mem_cons_of_mem _ ho', h'⟩
            · rintro ⟨o', ho', hfp, hne, hc, hdisj⟩
              rcases List.mem_cons.mp ho' with rfl | ho'
              · rcases hdisj with hm | ⟨t, ht, -⟩
                · rw [hta] at hm
                  exact absurd hm (by simp)
                · rw [hta] at ht
                  exact absurd ht (by simp)
              · exact ⟨o', ho', hfp, hne, hc, hdisj⟩
        | parsed t =>
            by_cases htc : t < cutoff
            · have hstep : buildCompletedFingerprints cutoff (o :: rest)
                  = buildCompletedFingerprints cutoff rest := by
                simp [buildCompletedFingerprints, hcond, hta, htc]
              rw [hstep, ih]
              constructor
              · rintro ⟨o', ho', h'⟩
                exact ⟨o', List.mem_cons_of_mem _ ho', h'⟩
              · rintro ⟨o', ho', hfp, hne, hc, hdisj⟩
                rcases List.mem_cons.mp ho' with rfl | ho'
                · rcases hdisj with hm | ⟨t', ht', htc'⟩
                  · rw [hta] at hm
                    exact absurd hm (by simp)
                  · rw [hta] at ht'
                    cases ht'
                    exact absurd htc htc'
                · exact ⟨o', ho', hfp, hne, hc, hdisj⟩
            · have hstep : buildCompletedFingerprints cutoff (o :: rest)
                  = addFp o.fingerprint
                      (buildCompletedFingerprints cutoff rest) := by
                simp [buildCompletedFingerprints, hcond, hta, htc]
              rw [hstep, mem_addFp, ih]
              constructor
              · rintro (⟨hfp, hne⟩ | ⟨o', ho', h'⟩)
                · exact ⟨o, List.mem_cons_self o rest, hfp, hne, hs,
                    Or.inr ⟨t, hta, htc⟩⟩
                · exact ⟨o', List.mem_cons_of_mem _ ho', h'⟩
              · rintro ⟨o', ho', hfp, hne, hc, hdisj⟩
                rcases List.mem_cons.mp ho' with rfl | ho'
                · exact Or.inl ⟨hfp, hne⟩
                · exact Or.inr ⟨o', ho', hfp, hne, hc, hdisj⟩
      · have hstep : buildCompletedFingerprints cutoff (o :: rest)
            = buildCompletedFingerprints cutoff rest := by
          simp [buildCompletedFingerprints, hs]
        rw [hstep, ih]
        constructor
        · rintro ⟨o', ho', h'⟩
          exact ⟨o', List.mem_cons_of_mem _ ho', h'⟩
        · rintro ⟨o', ho', hfp, hne, hc, hdisj⟩
          rcases List.mem_cons.mp ho' with rfl | ho'
          · exact absurd hc hs
          · exact ⟨o', ho', hfp, hne, hc, hdisj⟩

/-- Membership in the "recently pending" set, as the code builds it. -/
theorem mem_buildPendingFingerprints (cutoff : ℤ) (objs : List EvalObj)
    (fp : List Char) :
    fp ∈ buildPendingFingerprints cutoff objs ↔
      ∃ o ∈ objs, o.fingerprint = some fp ∧ fp ≠ []
        ∧ (o.lastModified = none
           ∨ ∃ lm, o.lastModified = some lm ∧ ¬ lm < cutoff) := by
  induction objs with
  | nil => simp [buildPendingFingerprints]
  | cons o rest ih =>
      cases hlm : o.lastModified with
      | none =>
          have hstep : buildPendingFingerprints cutoff (o :: rest)
              = addFp o.fingerprint (buildPendingFingerprints cutoff rest) := by
            simp [buildPendingFingerprints, hlm]
          rw [hstep, mem_addFp, ih]
          constructor
          · rintro (⟨hfp, hne⟩ | ⟨o', ho', h'⟩)
            · exact ⟨o, List.mem_cons_self o rest, hfp, hne, Or.inl hlm⟩
            · exact ⟨o', List.mem_cons_of_mem _ ho', h'⟩
          · rintro ⟨o', ho', hfp, hne, hdisj⟩
            rcases List.mem_cons.mp ho' with rfl | ho'
            · exact Or.inl ⟨hfp, hne⟩
            · exact Or.inr ⟨o', ho', hfp, hne, hdisj⟩
      | some lm =>
          by_cases hc : lm < cutoff
          · have hstep : buildPendingFingerprints cutoff (o :: rest)
                = buildPendingFingerprints cutoff rest := by
              simp [buildPendingFingerprints, hlm, hc]
            rw [hstep, ih]
            constructor
            · rintro ⟨o', ho', h'⟩
              exact ⟨o', List.mem_cons_of_mem _ ho', h'⟩
            · rintro ⟨o', ho', hfp, hne, hdisj⟩
              rcases List.mem_cons.mp ho' with rfl | ho'
              · rcases hdisj with hm | ⟨lm', hlm', hc'⟩
                · rw [hlm] at hm
                  exact absurd hm (by simp)
                · rw [hlm] at hlm'
                  cases hlm'
                  exact absurd hc hc'
              · exact ⟨o', ho', hfp, hne, hdisj⟩
          · have hstep : buildPendingFingerprints cutoff (o :: rest)
                = addFp o.fingerprint
                    (buildPendingFingerprints cutoff rest) := by
              simp [buildPendingFingerprints, hlm, hc]
            rw [hstep, mem_addFp, ih]
            constructor
            · rintro (⟨hfp, hne⟩ | ⟨o', ho', h'⟩)
              · exact ⟨o, List.mem_cons_self o rest, hfp, hne,
                  Or.inr ⟨lm, hlm, hc⟩⟩
              · exact ⟨o', List.mem_cons_of_mem _ ho', h'⟩
            · rintro ⟨o', ho', hfp, hne, hdisj⟩
              rcases List.mem_cons.mp ho' with rfl | ho'
              · exact Or.inl ⟨hfp, hne⟩
              · exact Or.inr ⟨o', ho', hfp, hne, hdisj⟩

/-- C4 counterexample: a readable COMPLETED execution record whose
`executed_at` field is missing has no execution timestamp inside (or
outside) any window, yet its fingerprint is placed in the "recently
completed" set — so the set does not contain exactly the fingerprints of
COMPLETED records dated within the window. -/
theorem C4_counterexample :
    c4Obj.executed_at = TimeField.missing
    ∧ "f".data ∈ buildCompletedFingerprints 940 [c4Obj] :=
  ⟨rfl, by decide⟩

/-- C4 amended: the "recently completed" set contains exactly the truthy
fingerprints of readable listed execution records whose normalized status
is COMPLETED and whose `executed_at` either parses to a timestamp not
before `now - SUPPRESSION_WINDOW` minutes or is missing/empty (records
with an unparseable timestamp are skipped; records without one are kept
regardless of age).  Consequently `is_duplicate` returns true for an idea
whose fingerprint appears in a listed COMPLETED record dated inside the
window, and false for an idea whose fingerprint appears only in COMPLETED
records dated before the cutoff and in no pending record. -/
theorem C4_amended :
    (∀ (cutoff : ℤ) (objs : List ExecObj) (fp : List Char),
      fp ∈ buildCompletedFingerprints cutoff objs ↔
        ∃ o ∈ objs, o.fingerprint = some fp ∧ fp ≠ []
          ∧ pyUpper (stable_text (o.status.map some)) = "COMPLETED".data
          ∧ (o.executed_at = .missing
             ∨ ∃ t, o.executed_at = .parsed t ∧ ¬ t < cutoff))
    ∧ (∀ (cutoff : ℤ) (objs : List ExecObj) (pending : List (List Char))
        (idea : IdeaFields) (o : ExecObj) (t : ℤ),
        o ∈ objs → o.fingerprint = some (idea_fingerprint_ingest idea) →
        pyUpper (stable_text (o.status.map some)) = "COMPLETED".data →
        o.executed_at = .parsed t → ¬ t < cutoff →
        is_duplicate (buildCompletedFingerprints cutoff objs) pending idea
          = true)
    ∧ (∀ (cutoff : ℤ) (objs : List ExecObj) (pending : List (List Char))
        (idea : IdeaFields),
        (∀ o ∈ objs, o.fingerprint = some (idea_fingerprint_ingest idea) →
          ∃ t, o.executed_at = .parsed t ∧ t < cutoff) →
        idea_fingerprint_ingest idea ∉ pending →
        is_duplicate (buildCompletedFingerprints cutoff objs) pending idea
          = false) := by
  have hne : ∀ i : IdeaFields, idea_fingerprint_ingest i ≠ [] := by
    intro i h
    unfold idea_fingerprint_ingest at h
    exact absurd (List.append_eq_nil.mp h).2 (by simp)
  refine ⟨mem_buildCompletedFingerprints, ?_, ?_⟩
  · intro cutoff objs pending idea o t ho hfp hs hta htc
    have hmem : idea_fingerprint_ingest idea
        ∈ buildCompletedFingerprints cutoff objs :=
      (mem_buildCompletedFingerprints cutoff objs _).mpr
        ⟨o, ho, hfp, hne idea, hs, Or.inr ⟨t, hta, htc⟩⟩
    simp [is_duplicate, hmem]
  · intro cutoff objs pending idea hall hpend
    have hmem : idea_fingerprint_ingest idea
        ∉ buildCompletedFingerprints cutoff objs := by
      intro hmem
      rcases (mem_buildCompletedFingerprints cutoff objs _).mp hmem with
        ⟨o, ho, hfp, -, -, hdisj⟩
      rcases hall o ho hfp with ⟨t, hta, htlt⟩
      rcases hdisj with hm | ⟨t', ht', htc'⟩
      · rw [hta] at hm
        exact absurd hm (by simp)
      · rw [hta] at ht'
        cases ht'
        exact absurd htlt htc'
    simp [is_duplicate, hmem, hpend]

/-- C4 amended witness: with cutoff 940 (now 1000, window 60), a COMPLETED
record of the idea at time 950 makes `is_duplicate` true, and one only at
time 939 with an empty pending set makes it false. -/
theorem C4_amended_witness :
    is_duplicate (buildCompletedFingerprints 940 [c4InWindowObj]) []
      c4Idea = true
    ∧ is_duplicate (buildCompletedFingerprints 940 [c4OutsideObj]) []
      c4Idea = false :=
  ⟨C4_amended.2.1 940 [c4InWindowObj] [] c4Idea c4InWindowObj 950
      (List.mem_singleton.mpr rfl) rfl (by decide) rfl (by decide),
    C4_amended.2.2 940 [c4OutsideObj] [] c4Idea
      (by
        intro o ho hfp
        rcases List.mem_singleton.mp ho with rfl
        exact ⟨939, rfl, by decide⟩)
      (by simp)⟩

/-- C10: each suppression set is built from a single `MaxKeys=50`
non-paginated listing, so it only ever contains fingerprints of the first
50 listed objects; a COMPLETED in-window record beyond those 50 objects is
invisible, and `is_duplicate` returns false for its idea. -/
theorem C10_maxkeys_truncation :
    (∀ (cutoff : ℤ) (bucket : List ExecObj) (fp : List Char),
      fp ∈ buildCompletedFromBucket cutoff bucket →
        ∃ o ∈ listMaxKeys50 bucket, o.fingerprint = some fp)
    ∧ (∀ (cutoff : ℤ) (bucket : List EvalObj) (fp : List Char),
      fp ∈ buildPendingFromBucket cutoff bucket →
        ∃ o ∈ listMaxKeys50 bucket, o.fingerprint = some fp)
    ∧ (c10Target ∈ c10Bucket
       ∧ c10Target.fingerprint = some (idea_fingerprint_ingest c10Idea)
       ∧ pyUpper (stable_text (c10Target.status.map some)) = "COMPLETED".data
       ∧ c10Target.executed_at = .parsed 950 ∧ ¬ (950 : ℤ) < 940
       ∧ is_duplicate (buildCompletedFromBucket 940 c10Bucket)
           (buildPendingFromBucket 970 []) c10Idea = false) := by
  refine ⟨?_, ?_, ?_⟩
  · intro cutoff bucket fp hmem
    rcases (mem_buildCompletedFingerprints cutoff (listMaxKeys50 bucket)
        fp).mp hmem with ⟨o, ho, hfp, -⟩
    exact ⟨o, ho, hfp⟩
  · intro cutoff bucket fp hmem
    rcases (mem_buildPendingFingerprints cutoff (listMaxKeys50 bucket)
        fp).mp hmem with ⟨o, ho, hfp, -⟩
    exact ⟨o, ho, hfp⟩
  · refine ⟨by decide, rfl, by decide, rfl, by decide, by decide⟩

/-- C10 witness: the first-50 bound applied at a one-record bucket whose
fingerprint the set does contain. -/
theorem C10_maxkeys_truncation_witness :
    ∃ o ∈ listMaxKeys50 [c4InWindowObj],
      o.fingerprint = some (idea_fingerprint_ingest c4Idea) :=
  C10_maxkeys_truncation.1 940 [c4InWindowObj]
    (idea_fingerprint_ingest c4Idea) (by decide)

/-- C8 counterexample: when the `put_object` persisting the evaluation
record raises a `BotoCoreError` (a failed write), `_write_s3_json` catches
and logs it, `run_once` continues, and the inbound task message is still
deleted — contradicting the claim that a failed persistence write leaves
the message un-acknowledged. -/
theorem C8_counterexample :
    CallOutcome.botoCoreError ≠ CallOutcome.ok
    ∧ run_once_message_deleted "EXECUTE".data .botoCoreError .ok = true :=
  ⟨by decide, rfl⟩

/-- C8 amended: only a persistence-write failure raising an exception other
than `BotoCoreError` (e.g. a botocore ClientError) propagates out of
`_write_s3_json` and aborts `run_once` before the delete, leaving the task
message available for retry; a `BotoCoreError` failure is caught and
logged, and the message is deleted anyway (best-effort persistence). -/
theorem C8_amended :
    (∀ (d : List Char) (branchCall : CallOutcome),
      run_once_message_deleted d .otherError branchCall = false)
    ∧ (∀ d : List Char,
      run_once_message_deleted d .botoCoreError .ok = true)
    ∧ (∀ d : List Char,
      run_once_message_deleted d .ok .ok = true) := by
  refine ⟨fun d bc => rfl, fun d => ?_, fun d => ?_⟩
  · by_cases h : d = "EXECUTE".data <;>
      simp [run_once_message_deleted, h, write_s3_json, send_hitl]
  · by_cases h : d = "EXECUTE".data <;>
      simp [run_once_message_deleted, h, write_s3_json, send_hitl]

end Pipeline
